import Mathlib

/-!
Shallow embedding of the proxy-aware HTTP relay of `aichat`
(src/src-tauri/src/lib.rs).

This file embeds the relay subsystem of the repository into Lean:

* `ProxyConfig`, `HttpRequestParams`, `HttpResponse`, `StreamRequestParams`,
  `StreamEvent` mirror the Rust structs of the same names.
* `create_http_client` / `create_stream_http_client` mirror the two client
  factories (lib.rs lines 113-192).  A built `reqwest` client is modelled by
  the observable configuration `ClientSpec` (total timeout, user agent,
  optional proxy with optional basic-auth credentials); `reqwest::Proxy::all`
  URL parsing is modelled as succeeding, since every claim concerns the
  composed URL, not `reqwest`'s parser.
* `send_http_request` (lib.rs lines 196-261) and `send_stream_request`
  (lib.rs lines 265-377) are embedded as pure functions of the request
  parameters and of a network oracle `net` that supplies the outcome of the
  single HTTP exchange the code performs.  The asynchronous pump spawned by
  `send_stream_request` (lines 317-361) is `pump`, and the events a call
  emits (synchronously or from the pump) are collected in order in
  `StreamOutput.events`; per-`stream_id` FIFO delivery of `app.emit` makes
  this list the event order a subscriber observes.
* Rust `String::to_uppercase` is modelled by `toUpperStr` (ASCII case
  mapping); every method string the dispatch distinguishes is ASCII.
* Chunks of `bytes_stream` are modelled by `Chunk`: `Chunk.text s` is a chunk
  whose bytes are valid UTF-8 decoding to `s` (the `Ok` branch of
  `std::str::from_utf8`), `Chunk.binary` a chunk that is not valid UTF-8.
  Logging (`info!`/`warn!`/`error!`) and the `chunk_count` counter, which is
  only logged, are not modelled.
-/

/-- Struct `ProxyConfig` (lib.rs lines 24-33). `port` is a `u16`; its numeric value
is all the code uses, so it is carried as a `Nat`. -/
structure ProxyConfig where
  enabled : Bool
  proxy_type : String
  host : String
  port : Nat
  requires_auth : Bool
  username : Option String
  password : Option String
deriving DecidableEq, Repr

/-- Struct `HttpRequestParams` (lib.rs lines 36-43); `headers` is carried as an
association list in iteration order. -/
structure HttpRequestParams where
  url : String
  method : String
  headers : Option (List (String × String))
  body : Option String
  proxy_config : Option ProxyConfig
deriving DecidableEq, Repr

/-- Struct `HttpResponse` (lib.rs lines 46-53). -/
structure HttpResponse where
  status : Nat
  headers : List (String × String)
  body : String
  success : Bool
  error : Option String
deriving DecidableEq, Repr

/-- Struct `StreamRequestParams` (lib.rs lines 56-64). -/
structure StreamRequestParams where
  url : String
  method : String
  headers : Option (List (String × String))
  body : Option String
  proxy_config : Option ProxyConfig
  stream_id : String
deriving DecidableEq, Repr

/-- Struct `StreamEvent` (lib.rs lines 67-73). -/
structure StreamEvent where
  stream_id : String
  event_type : String
  data : Option String
  error : Option String
deriving DecidableEq, Repr

/-- The proxy attached to a client: the composed proxy URL and the optional
basic-auth credentials (`Proxy::all(&proxy_url)` then `.basic_auth(u, p)`). -/
structure ProxySpec where
  url : String
  auth : Option (String × String)
deriving DecidableEq, Repr

/-- Observable configuration of a built `reqwest::Client`: the total timeout
in seconds (`none` when no `.timeout(..)` is set), the user agent, and the
optional proxy. -/
structure ClientSpec where
  timeoutSecs : Option Nat
  userAgent : String
  proxy : Option ProxySpec
deriving DecidableEq, Repr

/-- Rust `str::strip_prefix`: remove `pre` from the front of `s` when it is a
prefix, computed on the underlying character lists. The prefixes stripped by
the code are ASCII, so character count equals byte count. -/
def stripPrefixOpt (pre s : String) : Option String :=
  if pre.data.isPrefixOf s.data then some (String.mk (s.data.drop pre.data.length)) else none

/-- Host cleaning (lib.rs lines 121-125 and 162-166): strip one leading
`http://`, else `https://`, else `socks5://`, else keep the host as is. -/
def cleanHost (host : String) : String :=
  match stripPrefixOpt "http://" host with
  | some h => h
  | none =>
    match stripPrefixOpt "https://" host with
    | some h => h
    | none =>
      match stripPrefixOpt "socks5://" host with
      | some h => h
      | none => host

/-- URL composition of lib.rs lines 127-132 / 168-173: compose
`{type}://{clean_host}:{port}`, rejecting any other `proxy_type` with the
error string of line 131/172. -/
def composeProxyUrl (config : ProxyConfig) : Except String String :=
  let ch := cleanHost config.host
  if config.proxy_type = "http" then
    .ok ("http://" ++ ch ++ ":" ++ toString config.port)
  else if config.proxy_type = "https" then
    .ok ("https://" ++ ch ++ ":" ++ toString config.port)
  else if config.proxy_type = "socks5" then
    .ok ("socks5://" ++ ch ++ ":" ++ toString config.port)
  else
    .error "不支持的代理类型"

/-- Credential attachment of lib.rs lines 139-144 / 180-185: basic auth is
attached only when `requires_auth` holds and both credentials are present;
otherwise it is silently skipped. -/
def proxyAuth (config : ProxyConfig) : Option (String × String) :=
  if config.requires_auth then
    match config.username, config.password with
    | some u, some p => some (u, p)
    | _, _ => none
  else
    none

/-- Proxy resolution shared verbatim by both factories (lib.rs lines 118-147
and 159-188). -/
def buildProxy (config : ProxyConfig) : Except String ProxySpec :=
  match composeProxyUrl config with
  | .error e => .error e
  | .ok u => .ok { url := u, auth := proxyAuth config }

/-- Factory `create_http_client` (lib.rs lines 113-151): bounded client with a
300-second total timeout (line 115) and user agent `AiChat/1.0`; the proxy is
attached only when a config is present and `enabled`. -/
def create_http_client (proxy_config : Option ProxyConfig) : Except String ClientSpec :=
  let base : ClientSpec := { timeoutSecs := some 300, userAgent := "AiChat/1.0", proxy := none }
  match proxy_config with
  | none => .ok base
  | some config =>
    if config.enabled then
      match buildProxy config with
      | .error e => .error e
      | .ok p => .ok { base with proxy := some p }
    else
      .ok base

/-- Factory `create_stream_http_client` (lib.rs lines 154-192): identical to
`create_http_client` except that no `.timeout(..)` is set (line 157). -/
def create_stream_http_client (proxy_config : Option ProxyConfig) : Except String ClientSpec :=
  let base : ClientSpec := { timeoutSecs := none, userAgent := "AiChat/1.0", proxy := none }
  match proxy_config with
  | none => .ok base
  | some config =>
    if config.enabled then
      match buildProxy config with
      | .error e => .error e
      | .ok p => .ok { base with proxy := some p }
    else
      .ok base

/-- Rust `String::to_uppercase`, modelled as the ASCII case map applied
characterwise (every method string the dispatch distinguishes is ASCII). -/
def toUpperStr (s : String) : String :=
  String.mk (s.data.map Char.toUpper)

/-- The method dispatch of lib.rs lines 205-211 and 276-282 succeeds exactly
when the uppercased method string is one of the four dispatched verbs. -/
def validateMethod (method : String) : Bool :=
  let m := toUpperStr method
  m = "GET" || m = "POST" || m = "PUT" || m = "DELETE"

/-- The request handed to `request_builder.send()`: dispatched (uppercased)
method, target URL, headers applied in iteration order (lines 214-218 /
285-289) and optional body (lines 221-223 / 292-294). -/
structure BuiltRequest where
  method : String
  url : String
  headers : List (String × String)
  body : Option String
deriving DecidableEq, Repr

/-- Build the outbound request from the one-shot parameters. -/
def buildRequest (url method : String) (headers : Option (List (String × String)))
    (body : Option String) : BuiltRequest :=
  { method := toUpperStr method, url := url, headers := headers.getD [], body := body }

deriving instance DecidableEq for Except

/-- Raw response observed by the one-shot relay: numeric status, the raw
header sequence (`none` as value models a header value that is not valid
text, the `Err` branch of `value.to_str()` on line 233), and the outcome of
`response.text()` (lines 239-254). -/
structure NetResponse where
  status : Nat
  rawHeaders : List (String × Option String)
  bodyRead : Except String String
deriving DecidableEq, Repr

/-- Outcome of `request_builder.send().await` for the one-shot relay. -/
inductive NetOutcome where
  | sendErr (e : String)
  | ok (r : NetResponse)
deriving DecidableEq, Repr

/-- Header extraction of lib.rs lines 231-236: keep each header whose value
converts to text, in iteration order. -/
def extractHeaders (raw : List (String × Option String)) : List (String × String) :=
  raw.filterMap fun nv => nv.2.map fun v => (nv.1, v)

/-- Command `send_http_request` (lib.rs lines 196-261), as a function of the request
parameters and of the network oracle `net` giving the outcome of the single
`send()` the code performs. -/
def send_http_request (params : HttpRequestParams)
    (net : ClientSpec → BuiltRequest → NetOutcome) : Except String HttpResponse :=
  match create_http_client params.proxy_config with
  | .error e => Except.error ("创建HTTP客户端失败: " ++ e)
  | .ok client =>
  if validateMethod params.method then
    let req := buildRequest params.url params.method params.headers params.body
    match net client req with
    | .sendErr e => Except.error ("HTTP请求失败: " ++ e)
    | .ok r =>
      match r.bodyRead with
      | .ok body =>
        Except.ok { status := r.status
                    headers := extractHeaders r.rawHeaders
                    body := body
                    success := decide (200 ≤ r.status) && decide (r.status < 300)
                    error := none }
      | .error e => Except.error ("读取响应体失败: " ++ e)
  else
    Except.error "不支持的HTTP方法"

/-- A body chunk of `bytes_stream()`: `text s` decodes as UTF-8 to `s`,
`binary` fails `std::str::from_utf8`. -/
inductive Chunk where
  | text (s : String)
  | binary
deriving DecidableEq, Repr

/-- Outcome of `request_builder.send().await` for the streaming relay: a
transport failure, or a response with its status and the sequence of chunk
results its `bytes_stream()` yields. -/
inductive StreamNetOutcome where
  | sendErr (e : String)
  | ok (status : Nat) (body : List (Except String Chunk))
deriving DecidableEq, Repr

/-- A `data` event as emitted on lib.rs lines 327-332. -/
def dataEvent (sid text : String) : StreamEvent :=
  { stream_id := sid, event_type := "data", data := some text, error := none }

/-- An `error` event as emitted on lib.rs lines 304-309, 339-344, 368-373. -/
def errorEvent (sid msg : String) : StreamEvent :=
  { stream_id := sid, event_type := "error", data := none, error := some msg }

/-- The `end` event as emitted on lib.rs lines 353-358. -/
def endEvent (sid : String) : StreamEvent :=
  { stream_id := sid, event_type := "end", data := none, error := none }

/-- The spawned pump of lib.rs lines 317-361: consume chunk results in order;
a valid-UTF-8 chunk yields a `data` event, a non-UTF-8 chunk is skipped
(only a warning is logged, line 334), a chunk-read error yields an `error`
event and breaks out of the loop (lines 337-346).  After the loop — whether
it ended by exhaustion or by `break` — the `end` event of lines 353-358 is
emitted unconditionally. -/
def pump (sid : String) : List (Except String Chunk) → List StreamEvent
  | [] => [endEvent sid]
  | .ok (.text s) :: rest => dataEvent sid s :: pump sid rest
  | .ok .binary :: rest => pump sid rest
  | .error e :: _ => [errorEvent sid ("读取流式数据失败: " ++ e), endEvent sid]

/-- Result of a `send_stream_request` call: the value returned to the caller
and the ordered list of all `stream-event` emissions for this call's
`stream_id` (synchronous ones and those of the spawned pump). -/
structure StreamOutput where
  result : Except String String
  events : List StreamEvent
deriving DecidableEq, Repr

/-- Command `send_stream_request` (lib.rs lines 265-377) as a function of the
parameters and of the network oracle.  `response.status().is_success()`
(line 302) holds exactly for statuses 200-299. -/
def send_stream_request (params : StreamRequestParams)
    (net : ClientSpec → BuiltRequest → StreamNetOutcome) : StreamOutput :=
  let sid := params.stream_id
  match create_stream_http_client params.proxy_config with
  | .error e =>
    { result := .error ("创建流式HTTP客户端失败: " ++ e), events := [] }
  | .ok client =>
    if validateMethod params.method then
      let req := buildRequest params.url params.method params.headers params.body
      match net client req with
      | .sendErr e =>
        let msg := "流式HTTP请求失败: " ++ e
        { result := .error msg, events := [errorEvent sid msg] }
      | .ok status body =>
        if 200 ≤ status ∧ status < 300 then
          { result := .ok ("流式请求已启动，Stream ID: " ++ sid)
            events := pump sid body }
        else
          let msg := "HTTP错误: " ++ toString status
          { result := .error msg, events := [errorEvent sid msg] }
    else
      { result := .error "不支持的HTTP方法", events := [] }

/-- An event is terminal when it is an `end` or an `error` event. -/
def isTerminalEvent (ev : StreamEvent) : Bool :=
  ev.event_type == "end" || ev.event_type == "error"

/-- An `end` event. -/
def isEndEvent (ev : StreamEvent) : Bool :=
  ev.event_type == "end"

/-- An `error` event. -/
def isErrorEvent (ev : StreamEvent) : Bool :=
  ev.event_type == "error"

/-- A `data` event. -/
def isDataEvent (ev : StreamEvent) : Bool :=
  ev.event_type == "data"

/-- A chunk sequence contains a chunk-read error. -/
def hasReadError (body : List (Except String Chunk)) : Bool :=
  body.any fun c =>
    match c with
    | .error _ => true
    | .ok _ => false

/-- The pump emits exactly one `end` event, on every chunk sequence. -/
theorem pump_countP_end (sid : String) (body : List (Except String Chunk)) :
    (pump sid body).countP isEndEvent = 1 := by
  induction body with
  | nil => rfl
  | cons c rest ih =>
    match c with
    | .ok (.text s) =>
      simpa [pump, List.countP_cons, isEndEvent, dataEvent] using ih
    | .ok .binary =>
      simpa [pump] using ih
    | .error e => rfl

/-- The pump's last emission is always the `end` event. -/
theorem pump_getLast (sid : String) (body : List (Except String Chunk)) :
    (pump sid body).getLast? = some (endEvent sid) := by
  induction body with
  | nil => rfl
  | cons c rest ih =>
    match c with
    | .ok (.text s) =>
      rw [pump, List.getLast?_cons, ih]
      cases rest <;> simp [pump]
    | .ok .binary =>
      simpa [pump] using ih
    | .error e => rfl

/-- The pump emits one `error` event when the chunk sequence contains a
chunk-read error, and none otherwise. -/
theorem pump_countP_error (sid : String) (body : List (Except String Chunk)) :
    (pump sid body).countP isErrorEvent = if hasReadError body then 1 else 0 := by
  induction body with
  | nil => rfl
  | cons c rest ih =>
    match c with
    | .ok (.text s) =>
      simpa [pump, List.countP_cons, isErrorEvent, dataEvent, hasReadError] using ih
    | .ok .binary =>
      simpa [pump, hasReadError] using ih
    | .error e =>
      simp [pump, hasReadError, List.countP_cons, isErrorEvent, errorEvent, endEvent]

/-- On a run of valid-UTF-8 chunks with no read error, the pump emits one
`data` event per chunk in order, then the `end` event. -/
theorem pump_text_chunks (sid : String) (texts : List String) :
    pump sid (texts.map fun t => .ok (.text t)) =
      texts.map (dataEvent sid) ++ [endEvent sid] := by
  induction texts with
  | nil => rfl
  | cons t rest ih => simp [pump, ih]

/-- For a supported `proxy_type` the composed URL is
`{proxy_type}://{cleaned host}:{port}`. -/
theorem composeProxyUrl_valid (config : ProxyConfig)
    (h : config.proxy_type = "http" ∨ config.proxy_type = "https" ∨
      config.proxy_type = "socks5") :
    composeProxyUrl config =
      .ok (config.proxy_type ++ "://" ++ cleanHost config.host ++ ":"
        ++ toString config.port) := by
  rcases h with h | h | h <;> simp [composeProxyUrl, h]

/-- For an unsupported `proxy_type` the composition fails with the
unsupported-proxy-type error. -/
theorem composeProxyUrl_invalid (config : ProxyConfig)
    (h1 : config.proxy_type ≠ "http") (h2 : config.proxy_type ≠ "https")
    (h3 : config.proxy_type ≠ "socks5") :
    composeProxyUrl config = .error "不支持的代理类型" := by
  simp [composeProxyUrl, h1, h2, h3]

/-- Every client the bounded factory returns carries the 300-second timeout
and the fixed user agent. -/
theorem create_http_client_shape (pc : Option ProxyConfig) (c : ClientSpec)
    (h : create_http_client pc = .ok c) :
    c.timeoutSecs = some 300 ∧ c.userAgent = "AiChat/1.0" := by
  rcases pc with _ | config
  · simp only [create_http_client, Except.ok.injEq] at h
    subst h; exact ⟨rfl, rfl⟩
  · by_cases he : config.enabled
    · rcases hb : buildProxy config with e | p <;>
        simp only [create_http_client, he, if_true, hb, Except.ok.injEq,
          reduceCtorEq] at h
      subst h; exact ⟨rfl, rfl⟩
    · simp [create_http_client, he] at h
      subst h; exact ⟨rfl, rfl⟩

/-- Every client the streaming factory returns carries no timeout and the
fixed user agent. -/
theorem create_stream_http_client_shape (pc : Option ProxyConfig) (c : ClientSpec)
    (h : create_stream_http_client pc = .ok c) :
    c.timeoutSecs = none ∧ c.userAgent = "AiChat/1.0" := by
  rcases pc with _ | config
  · simp only [create_stream_http_client, Except.ok.injEq] at h
    subst h; exact ⟨rfl, rfl⟩
  · by_cases he : config.enabled
    · rcases hb : buildProxy config with e | p <;>
        simp only [create_stream_http_client, he, if_true, hb, Except.ok.injEq,
          reduceCtorEq] at h
      subst h; exact ⟨rfl, rfl⟩
    · simp [create_stream_http_client, he] at h
      subst h; exact ⟨rfl, rfl⟩

/-- When a `send_stream_request` call returns an acknowledgment, its event
list is the pump's output on the chunk sequence of the response body. -/
theorem send_stream_request_ok_shape (params : StreamRequestParams)
    (net : ClientSpec → BuiltRequest → StreamNetOutcome) (ack : String)
    (h : (send_stream_request params net).result = .ok ack) :
    ∃ body, (send_stream_request params net).events = pump params.stream_id body := by
  rcases hcc : create_stream_http_client params.proxy_config with e | client
  · simp [send_stream_request, hcc] at h
  · by_cases hm : validateMethod params.method
    · rcases hnet : net client (buildRequest params.url params.method params.headers
        params.body) with e | ⟨status, body⟩
      · simp [send_stream_request, hcc, hm, hnet] at h
      · by_cases hst : 200 ≤ status ∧ status < 300
        · exact ⟨body, by simp [send_stream_request, hcc, hm, hnet, hst]⟩
        · simp [send_stream_request, hcc, hm, hnet, hst] at h
    · simp [send_stream_request, hcc, hm] at h

/-- C3 (counterexample): the claim asserts a 30-second total timeout in
bounded mode, but on the absent-proxy input the bounded factory builds a
client whose total timeout is 300 seconds, not 30. -/
theorem claim_C3_counterexample :
    create_http_client none =
      .ok { timeoutSecs := some 300, userAgent := "AiChat/1.0", proxy := none } ∧
    some (300 : Nat) ≠ some 30 :=
  ⟨rfl, by decide⟩

/-- C3 (amended): the bounded (one-shot) factory configures a 300-second
total timeout and the unbounded (streaming) factory configures no total
timeout, for every `Option ProxyConfig` input. -/
theorem claim_C3 (pc : Option ProxyConfig) :
    (∀ c, create_http_client pc = .ok c → c.timeoutSecs = some 300) ∧
    (∀ c, create_stream_http_client pc = .ok c → c.timeoutSecs = none) :=
  ⟨fun c h => (create_http_client_shape pc c h).1,
   fun c h => (create_stream_http_client_shape pc c h).1⟩

/-- C3 (witness): concrete instantiation of `claim_C3` at the absent proxy
config. -/
theorem claim_C3_witness :
    create_http_client none =
      .ok { timeoutSecs := some 300, userAgent := "AiChat/1.0", proxy := none } ∧
    ClientSpec.timeoutSecs
        { timeoutSecs := some 300, userAgent := "AiChat/1.0", proxy := none } = some 300 ∧
    create_stream_http_client none =
      .ok { timeoutSecs := none, userAgent := "AiChat/1.0", proxy := none } ∧
    ClientSpec.timeoutSecs
        { timeoutSecs := none, userAgent := "AiChat/1.0", proxy := none } = none :=
  ⟨rfl, (claim_C3 none).1 _ rfl, rfl, (claim_C3 none).2 _ rfl⟩

/-- C2: a one-shot relay whose HTTP exchange yields a non-2xx response whose
body reads successfully returns `Ok` with that status, `success = false` and
`error = none` — not a Result-level error — and every `HttpResponse` the
relay returns has `success = true` iff `200 ≤ status < 300`. -/
theorem claim_C2 (params : HttpRequestParams) (status : Nat)
    (rawHeaders : List (String × Option String)) (bodyText : String)
    (hm : validateMethod params.method = true)
    (hc : ∃ c, create_http_client params.proxy_config = .ok c)
    (hst : ¬(200 ≤ status ∧ status < 300)) :
    send_http_request params
        (fun _ _ => .ok { status := status, rawHeaders := rawHeaders, bodyRead := .ok bodyText }) =
      .ok { status := status, headers := extractHeaders rawHeaders, body := bodyText,
            success := false, error := none } ∧
    ∀ net r, send_http_request params net = .ok r →
      (r.success = true ↔ 200 ≤ r.status ∧ r.status < 300) := by
  obtain ⟨c, hc⟩ := hc
  constructor
  · have hfalse : (decide (200 ≤ status) && decide (status < 300)) = false := by
      rw [← Bool.decide_and]; exact decide_eq_false hst
    simp [send_http_request, hc, hm, hfalse]
  · intro net r h
    rcases hnet : net c (buildRequest params.url params.method params.headers
      params.body) with e | resp
    · simp [send_http_request, hc, hm, hnet] at h
    · rcases hbr : resp.bodyRead with e | body
      · simp [send_http_request, hc, hm, hnet, hbr] at h
      · simp [send_http_request, hc, hm, hnet, hbr] at h
        subst h
        simp [Bool.and_eq_true, decide_eq_true_eq]

/-- C2 (witness): a 404 response with body `"not found"` on a plain GET
yields `Ok` with status 404, `success = false`, `error = none`. -/
theorem claim_C2_witness :
    validateMethod "GET" = true ∧
    ¬(200 ≤ 404 ∧ 404 < 300) ∧
    send_http_request
        { url := "https://api.example.com/x", method := "GET", headers := none,
          body := none, proxy_config := none }
        (fun _ _ => .ok { status := 404, rawHeaders := [], bodyRead := .ok "not found" }) =
      .ok { status := 404, headers := [], body := "not found", success := false,
            error := none } := by
  refine ⟨by decide, by decide, ?_⟩
  exact (claim_C2
    { url := "https://api.example.com/x", method := "GET", headers := none,
      body := none, proxy_config := none }
    404 [] "not found" (by decide) ⟨_, rfl⟩ (by decide)).1

/-- C10: every `HttpResponse` value `send_http_request` returns has
`error = none`; every failure path is a Result-level error instead. -/
theorem claim_C10 (params : HttpRequestParams)
    (net : ClientSpec → BuiltRequest → NetOutcome) (r : HttpResponse)
    (h : send_http_request params net = .ok r) : r.error = none := by
  rcases hcc : create_http_client params.proxy_config with e | client
  · simp [send_http_request, hcc] at h
  · by_cases hm : validateMethod params.method
    · rcases hnet : net client (buildRequest params.url params.method params.headers
        params.body) with e | resp
      · simp [send_http_request, hcc, hm, hnet] at h
      · rcases hbr : resp.bodyRead with e | body
        · simp [send_http_request, hcc, hm, hnet, hbr] at h
        · simp [send_http_request, hcc, hm, hnet, hbr] at h
          subst h; rfl
    · simp [send_http_request, hcc, hm] at h

/-- C10 (witness): concrete instantiation of `claim_C10` on a plain GET
answered with a 200 response. -/
theorem claim_C10_witness :
    send_http_request
        { url := "https://api.example.com/x", method := "GET", headers := none,
          body := none, proxy_config := none }
        (fun _ _ => .ok { status := 200, rawHeaders := [], bodyRead := .ok "ok" }) =
      .ok { status := 200, headers := [], body := "ok", success := true, error := none } ∧
    HttpResponse.error
        { status := 200, headers := [], body := "ok", success := true, error := none } =
      none := by
  have h :
      send_http_request
          { url := "https://api.example.com/x", method := "GET", headers := none,
            body := none, proxy_config := none }
          (fun _ _ => .ok { status := 200, rawHeaders := [], bodyRead := .ok "ok" }) =
        .ok { status := 200, headers := [], body := "ok", success := true, error := none } := by
    decide
  exact ⟨h, claim_C10 _ _ _ h⟩

/-- C1 (counterexample): on a successfully started stream whose body ends in
a chunk-read error, the pump emits an `error` event and then still emits the
unconditional `end` event — two terminal events, so "exactly one terminal
event, never both" fails. -/
theorem claim_C1_counterexample :
    (∃ ack,
      (send_stream_request
          { url := "https://api.example.com/s", method := "GET", headers := none,
            body := none, proxy_config := none, stream_id := "s1" }
          (fun _ _ => .ok 200 [.error "connection reset"])).result = .ok ack) ∧
    (send_stream_request
        { url := "https://api.example.com/s", method := "GET", headers := none,
          body := none, proxy_config := none, stream_id := "s1" }
        (fun _ _ => .ok 200 [.error "connection reset"])).events.countP
      isTerminalEvent ≠ 1 :=
  ⟨⟨"流式请求已启动，Stream ID: s1", by decide⟩, by decide⟩

/-- C1 (amended): for every successfully started stream, the pump emits
exactly one `end` event and it is the last event emitted; at most one
`error` event may additionally precede it — on the chunk-read-error path the
stream receives both an `error` event and the final `end` event. -/
theorem claim_C1 (params : StreamRequestParams)
    (net : ClientSpec → BuiltRequest → StreamNetOutcome)
    (h : ∃ ack, (send_stream_request params net).result = .ok ack) :
    (send_stream_request params net).events.countP isEndEvent = 1 ∧
    (send_stream_request params net).events.getLast? = some (endEvent params.stream_id) ∧
    (send_stream_request params net).events.countP isErrorEvent ≤ 1 := by
  obtain ⟨ack, hack⟩ := h
  obtain ⟨body, hev⟩ := send_stream_request_ok_shape params net ack hack
  rw [hev]
  refine ⟨pump_countP_end _ _, pump_getLast _ _, ?_⟩
  rw [pump_countP_error]
  split <;> simp

/-- C1 (witness): concrete instantiation of `claim_C1` on a stream delivering
one text chunk. -/
theorem claim_C1_witness :
    (∃ ack,
      (send_stream_request
          { url := "https://api.example.com/s", method := "GET", headers := none,
            body := none, proxy_config := none, stream_id := "s1" }
          (fun _ _ => .ok 200 [.ok (.text "hi")])).result = .ok ack) ∧
    (send_stream_request
        { url := "https://api.example.com/s", method := "GET", headers := none,
          body := none, proxy_config := none, stream_id := "s1" }
        (fun _ _ => .ok 200 [.ok (.text "hi")])).events.countP isEndEvent = 1 ∧
    (send_stream_request
        { url := "https://api.example.com/s", method := "GET", headers := none,
          body := none, proxy_config := none, stream_id := "s1" }
        (fun _ _ => .ok 200 [.ok (.text "hi")])).events.getLast? = some (endEvent "s1") ∧
    (send_stream_request
        { url := "https://api.example.com/s", method := "GET", headers := none,
          body := none, proxy_config := none, stream_id := "s1" }
        (fun _ _ => .ok 200 [.ok (.text "hi")])).events.countP isErrorEvent ≤ 1 := by
  have h :
      ∃ ack,
        (send_stream_request
            { url := "https://api.example.com/s", method := "GET", headers := none,
              body := none, proxy_config := none, stream_id := "s1" }
            (fun _ _ => .ok 200 [.ok (.text "hi")])).result = .ok ack :=
    ⟨"流式请求已启动，Stream ID: s1", by decide⟩
  obtain ⟨h1, h2, h3⟩ := claim_C1 _ _ h
  exact ⟨h, h1, h2, h3⟩

/-- C4: a streaming relay that obtains a non-2xx response emits no `data`
events, emits exactly one `error` event carrying the HTTP-error message with
that status, and `start_stream` itself returns that error instead of an
acknowledgment. -/
theorem claim_C4 (params : StreamRequestParams) (status : Nat)
    (body : List (Except String Chunk))
    (hm : validateMethod params.method = true)
    (hc : ∃ c, create_stream_http_client params.proxy_config = .ok c)
    (hst : ¬(200 ≤ status ∧ status < 300)) :
    send_stream_request params (fun _ _ => .ok status body) =
      { result := .error ("HTTP错误: " ++ toString status),
        events := [errorEvent params.stream_id ("HTTP错误: " ++ toString status)] } := by
  obtain ⟨c, hc⟩ := hc
  simp [send_stream_request, hc, hm, hst]

/-- C4 (witness): a 500 response on a plain GET stream yields the single
`error` event `HTTP错误: 500` and an error result. -/
theorem claim_C4_witness :
    validateMethod "GET" = true ∧
    ¬(200 ≤ 500 ∧ 500 < 300) ∧
    send_stream_request
        { url := "https://api.example.com/s", method := "GET", headers := none,
          body := none, proxy_config := none, stream_id := "s1" }
        (fun _ _ => .ok 500 []) =
      { result := .error "HTTP错误: 500", events := [errorEvent "s1" "HTTP错误: 500"] } := by
  refine ⟨by decide, by decide, ?_⟩
  exact claim_C4
    { url := "https://api.example.com/s", method := "GET", headers := none,
      body := none, proxy_config := none, stream_id := "s1" }
    500 [] (by decide) ⟨_, rfl⟩ (by decide)

/-- C5: a streaming relay on a 2xx response whose body is a sequence of
valid-UTF-8 chunks with no read error acknowledges the stream and emits one
`data` event per chunk carrying its text, in chunk order, followed by the
single `end` event last. -/
theorem claim_C5 (params : StreamRequestParams) (status : Nat) (texts : List String)
    (hm : validateMethod params.method = true)
    (hc : ∃ c, create_stream_http_client params.proxy_config = .ok c)
    (hst : 200 ≤ status ∧ status < 300) :
    send_stream_request params (fun _ _ => .ok status (texts.map fun t => .ok (.text t))) =
      { result := .ok ("流式请求已启动，Stream ID: " ++ params.stream_id),
        events := texts.map (dataEvent params.stream_id) ++ [endEvent params.stream_id] } := by
  obtain ⟨c, hc⟩ := hc
  simp [send_stream_request, hc, hm, hst, pump_text_chunks]

/-- C5 (witness): a 200 response delivering chunks `"abc"`, `"def"` yields
`data("abc")`, `data("def")`, `end`, in that order. -/
theorem claim_C5_witness :
    validateMethod "GET" = true ∧
    (200 ≤ 200 ∧ 200 < 300) ∧
    send_stream_request
        { url := "https://api.example.com/s", method := "GET", headers := none,
          body := none, proxy_config := none, stream_id := "s1" }
        (fun _ _ => .ok 200 [.ok (.text "abc"), .ok (.text "def")]) =
      { result := .ok "流式请求已启动，Stream ID: s1",
        events := [dataEvent "s1" "abc", dataEvent "s1" "def", endEvent "s1"] } := by
  refine ⟨by decide, by decide, ?_⟩
  exact claim_C5
    { url := "https://api.example.com/s", method := "GET", headers := none,
      body := none, proxy_config := none, stream_id := "s1" }
    200 ["abc", "def"] (by decide) ⟨_, rfl⟩ (by decide)

/-- C8: a chunk that is not valid UTF-8 is skipped by the pump: wherever it
occurs in the chunk sequence, the emitted events are exactly those of the
sequence without it — no `data` event for that chunk and no termination —
and the unconditional `end` event is still emitted last. -/
theorem claim_C8 (sid : String) (pre rest : List (Except String Chunk)) :
    pump sid (pre ++ .ok Chunk.binary :: rest) = pump sid (pre ++ rest) ∧
    (pump sid (pre ++ .ok Chunk.binary :: rest)).getLast? = some (endEvent sid) := by
  refine ⟨?_, pump_getLast _ _⟩
  induction pre with
  | nil => rfl
  | cons c pre ih =>
    match c with
    | .ok (.text s) =>
      exact congrArg (fun l => dataEvent sid s :: l) ih
    | .ok .binary => exact ih
    | .error e => rfl

/-- C6 (counterexample): the method string `get` is none of `GET`, `POST`,
`PUT`, `DELETE`, yet the one-shot relay does not fail validation: the
dispatch uppercases the method first, so the exchange is performed and
returns `Ok`. -/
theorem claim_C6_counterexample :
    (("get" : String) ≠ "GET" ∧ ("get" : String) ≠ "POST" ∧
      ("get" : String) ≠ "PUT" ∧ ("get" : String) ≠ "DELETE") ∧
    send_http_request
        { url := "https://api.example.com/x", method := "get", headers := none,
          body := none, proxy_config := none }
        (fun _ _ => .ok { status := 200, rawHeaders := [], bodyRead := .ok "" }) =
      .ok { status := 200, headers := [], body := "", success := true, error := none } :=
  ⟨by decide, by decide⟩

/-- C6 (amended): a request whose method string does not uppercase to one of
`GET`, `POST`, `PUT`, `DELETE` fails both relays with the unsupported-method
validation error — independent of the network oracle, so with no network
call and no emitted event — provided client construction from the proxy
config succeeds (otherwise that earlier validation error is returned first,
still before any network I/O); every method string in the allow-list itself
passes validation. -/
theorem claim_C6 (p : HttpRequestParams) (sp : StreamRequestParams)
    (hcp : ∃ c, create_http_client p.proxy_config = .ok c)
    (hcs : ∃ c, create_stream_http_client sp.proxy_config = .ok c)
    (hm : validateMethod p.method = false)
    (hsm : validateMethod sp.method = false) :
    (∀ net, send_http_request p net = .error "不支持的HTTP方法") ∧
    (∀ net, send_stream_request sp net =
      { result := .error "不支持的HTTP方法", events := [] }) ∧
    (∀ m, m = "GET" ∨ m = "POST" ∨ m = "PUT" ∨ m = "DELETE" →
      validateMethod m = true) := by
  obtain ⟨c, hc⟩ := hcp
  obtain ⟨cs, hcsk⟩ := hcs
  refine ⟨fun net => ?_, fun net => ?_, fun m hm4 => ?_⟩
  · simp [send_http_request, hc, hm]
  · simp [send_stream_request, hcsk, hsm]
  · rcases hm4 with h | h | h | h <;> subst h <;> decide

/-- C6 (witness): concrete instantiation of `claim_C6` at method `PATCH`. -/
theorem claim_C6_witness :
    validateMethod "PATCH" = false ∧
    send_http_request
        { url := "https://api.example.com/x", method := "PATCH", headers := none,
          body := none, proxy_config := none }
        (fun _ _ => .ok { status := 200, rawHeaders := [], bodyRead := .ok "" }) =
      .error "不支持的HTTP方法" ∧
    send_stream_request
        { url := "https://api.example.com/x", method := "PATCH", headers := none,
          body := none, proxy_config := none, stream_id := "s1" }
        (fun _ _ => .ok 200 []) =
      { result := .error "不支持的HTTP方法", events := [] } ∧
    validateMethod "GET" = true := by
  have h := claim_C6
    { url := "https://api.example.com/x", method := "PATCH", headers := none,
      body := none, proxy_config := none }
    { url := "https://api.example.com/x", method := "PATCH", headers := none,
      body := none, proxy_config := none, stream_id := "s1" }
    ⟨_, rfl⟩ ⟨_, rfl⟩ (by decide) (by decide)
  exact ⟨by decide, h.1 _, h.2.1 _, h.2.2 "GET" (Or.inl rfl)⟩

/-- C7: for every enabled config with a supported `proxy_type`, the bounded
factory strips one leading scheme prefix from `host` and composes the proxy
URL exactly as `{proxy_type}://{cleaned_host}:{port}` — in particular
`proxy_type = socks5`, `host = "socks5://proxy.local"`, `port = 1080`
compose to `socks5://proxy.local:1080` — and for any other `proxy_type`
the factory fails with the unsupported-proxy-type error before any socket
is opened. -/
theorem claim_C7 (cfg : ProxyConfig) (hen : cfg.enabled = true) :
    ((cfg.proxy_type = "http" ∨ cfg.proxy_type = "https" ∨ cfg.proxy_type = "socks5") →
      create_http_client (some cfg) =
        .ok { timeoutSecs := some 300, userAgent := "AiChat/1.0",
              proxy := some { url := cfg.proxy_type ++ "://" ++ cleanHost cfg.host ++ ":" ++ toString cfg.port, auth := proxyAuth cfg } }) ∧
    ((cfg.proxy_type ≠ "http" ∧ cfg.proxy_type ≠ "https" ∧ cfg.proxy_type ≠ "socks5") →
      create_http_client (some cfg) = .error "不支持的代理类型") ∧
    create_http_client
        (some { enabled := true, proxy_type := "socks5", host := "socks5://proxy.local",
                port := 1080, requires_auth := false, username := none, password := none }) =
      .ok { timeoutSecs := some 300, userAgent := "AiChat/1.0",
            proxy := some { url := "socks5://proxy.local:1080", auth := none } } := by
  refine ⟨fun ht => ?_, fun ht => ?_, by decide⟩
  · have hurl := composeProxyUrl_valid cfg ht
    simp [create_http_client, hen, buildProxy, hurl]
  · have hurl := composeProxyUrl_invalid cfg ht.1 ht.2.1 ht.2.2
    simp [create_http_client, hen, buildProxy, hurl]

/-- C7 (witness): concrete instantiation of `claim_C7` at the socks5 config
of the claim and at an enabled config with the unsupported type `ftp`. -/
theorem claim_C7_witness :
    create_http_client
        (some { enabled := true, proxy_type := "socks5", host := "socks5://proxy.local",
                port := 1080, requires_auth := false, username := none, password := none }) =
      .ok { timeoutSecs := some 300, userAgent := "AiChat/1.0",
            proxy := some { url := "socks5://proxy.local:1080", auth := none } } ∧
    create_http_client
        (some { enabled := true, proxy_type := "ftp", host := "h", port := 1,
                requires_auth := false, username := none, password := none }) =
      .error "不支持的代理类型" := by
  have h1 := claim_C7
    { enabled := true, proxy_type := "socks5", host := "socks5://proxy.local",
      port := 1080, requires_auth := false, username := none, password := none } rfl
  have h2 := claim_C7
    { enabled := true, proxy_type := "ftp", host := "h", port := 1,
      requires_auth := false, username := none, password := none } rfl
  exact ⟨h1.2.2, h2.2.1 (by decide)⟩

/-- C9: for an enabled config with a supported `proxy_type` and
`requires_auth = true`, missing either credential makes the factory silently
skip proxy credentials (no basic auth) while still building and returning
the client, and with both credentials present it attaches them as basic
auth. -/
theorem claim_C9 (cfg : ProxyConfig) (hen : cfg.enabled = true)
    (ht : cfg.proxy_type = "http" ∨ cfg.proxy_type = "https" ∨ cfg.proxy_type = "socks5")
    (ha : cfg.requires_auth = true) :
    ((cfg.username = none ∨ cfg.password = none) →
      create_http_client (some cfg) =
        .ok { timeoutSecs := some 300, userAgent := "AiChat/1.0",
              proxy := some { url := cfg.proxy_type ++ "://" ++ cleanHost cfg.host ++ ":" ++ toString cfg.port, auth := none } }) ∧
    (∀ u p, cfg.username = some u → cfg.password = some p →
      create_http_client (some cfg) =
        .ok { timeoutSecs := some 300, userAgent := "AiChat/1.0",
              proxy := some { url := cfg.proxy_type ++ "://" ++ cleanHost cfg.host ++ ":" ++ toString cfg.port, auth := some (u, p) } }) := by
  have hurl := composeProxyUrl_valid cfg ht
  constructor
  · intro hcred
    have hauth : proxyAuth cfg = none := by
      rcases hcred with h | h
      · simp [proxyAuth, ha, h]
      · rcases hu : cfg.username with _ | u
        · simp [proxyAuth, ha, hu]
        · simp [proxyAuth, ha, hu, h]
    simp [create_http_client, hen, buildProxy, hurl, hauth]
  · intro u p hu hp
    have hauth : proxyAuth cfg = some (u, p) := by simp [proxyAuth, ha, hu, hp]
    simp [create_http_client, hen, buildProxy, hurl, hauth]

/-- C9 (witness): with `requires_auth = true` and only a username, the built
client has a proxy with no basic auth; with both credentials, they are
attached. -/
theorem claim_C9_witness :
    create_http_client
        (some { enabled := true, proxy_type := "http", host := "proxy.local", port := 8080,
                requires_auth := true, username := some "alice", password := none }) =
      .ok { timeoutSecs := some 300, userAgent := "AiChat/1.0",
            proxy := some { url := "http://proxy.local:8080", auth := none } } ∧
    create_http_client
        (some { enabled := true, proxy_type := "http", host := "proxy.local", port := 8080,
                requires_auth := true, username := some "alice",
                password := some "pw" }) =
      .ok { timeoutSecs := some 300, userAgent := "AiChat/1.0",
            proxy := some { url := "http://proxy.local:8080", auth := some ("alice", "pw") } } := by
  have h1 := claim_C9
    { enabled := true, proxy_type := "http", host := "proxy.local", port := 8080,
      requires_auth := true, username := some "alice", password := none }
    rfl (Or.inl rfl) rfl
  have h2 := claim_C9
    { enabled := true, proxy_type := "http", host := "proxy.local", port := 8080,
      requires_auth := true, username := some "alice", password := some "pw" }
    rfl (Or.inl rfl) rfl
  exact ⟨h1.1 (Or.inr rfl), h2.2 "alice" "pw" rfl rfl⟩
